import Mathlib

/-!
Verification of the estimation engine of the building-estimator repository
(`calculations.py`): the material-quantity calculator, the plan-variant
adjuster, the cost calculator and the BOQ assembler.

The Python code works on finite decimal values; we embed it shallowly over
`ℚ`.  Python's `round(x, n)` is modelled by `rnd n x` (round to `n` decimal
places); Python's `math.ceil` by `Int.ceil`.  Python dictionaries whose key
sets are fixed by the code (the sections of a materials snapshot, the cost
result) are modelled as structures; the rate table, whose keys are data, is
modelled as an association list of strings, so that a supplied table may
omit keys (a lookup of a missing key models Python's `KeyError`, i.e. the
computation fails with that key as the error value).
-/

unseal Rat.add Rat.mul Rat.inv Rat.sub Rat.ofScientific

/-- `round(x, d)` of Python, over `ℚ`: round `x` to `d` decimal places
(ties are modelled half-up; no value these proofs evaluate sits on a tie). -/
def rnd (d : ℕ) (x : ℚ) : ℚ := ((round (x * 10 ^ d) : ℤ) : ℚ) / 10 ^ d

/-- Python's `str.lower()`, for the ASCII strings the code applies it to. -/
def lower_string (s : String) : String := ⟨s.data.map Char.toLower⟩

/-! ## Data model

`InputSet` carries exactly the fields `calculate_materials` reads
(`structure_type` is read by the source but never used; the fields the
source reads with `inputs.get(key, default)` — brick dimensions, flooring
area, tile size, paint coats, concrete grade, mortar mix — are plain fields
here, holding the default when the caller supplied none). -/

structure InputSet where
  num_floors : ℕ
  structure_type : String
  num_footings : ℕ
  footing_length : ℚ
  footing_width : ℚ
  footing_depth : ℚ
  pcc_thickness : ℚ
  num_columns : ℕ
  column_length : ℚ
  column_width : ℚ
  column_height : ℚ
  total_beam_length : ℚ
  beam_width : ℚ
  beam_depth : ℚ
  slab_area : ℚ
  slab_thickness : ℚ
  concrete_grade : String
  mortar_mix : String
  external_wall_length : ℚ
  internal_wall_length : ℚ
  wall_thickness : ℚ
  wall_height : ℚ
  internal_plaster_thickness : ℚ
  external_plaster_thickness : ℚ
  brick_length_m : ℚ
  brick_width_m : ℚ
  brick_height_m : ℚ
  flooring_area : ℚ
  tile_size : ℕ
  paint_coats : ℕ
deriving DecidableEq

structure ConcreteQuantities where
  pcc_volume : ℚ
  footing_rcc : ℚ
  column_rcc : ℚ
  beam_rcc : ℚ
  slab_rcc : ℚ
  total_rcc : ℚ
deriving DecidableEq

structure CementQuantities where
  for_concrete : ℚ
  for_mortarbrickwork : ℚ
  for_plaster : ℚ
  total_bags : ℚ
deriving DecidableEq

structure SandQuantities where
  concrete_sand_m3 : ℚ
  concrete_sand_kg : ℚ
  brickwork_sand_m3 : ℚ
  brickwork_sand_kg : ℚ
  plaster_sand_m3 : ℚ
  plaster_sand_kg : ℚ
  total_sand_kg : ℚ
deriving DecidableEq

structure AggregateQuantities where
  concrete_aggregate_m3 : ℚ
  concrete_aggregate_kg : ℚ
  total_aggregate_kg : ℚ
deriving DecidableEq

structure SteelQuantities where
  footing_steel_kg : ℚ
  column_steel_kg : ℚ
  beam_steel_kg : ℚ
  slab_steel_kg : ℚ
  total_steel_kg : ℚ
deriving DecidableEq

structure MasonryQuantities where
  brick_quantity : ℚ
  mortar_volume_m3 : ℚ
deriving DecidableEq

structure FinishingQuantities where
  floor_tiles_qty : ℚ
  paint_liters : ℚ
  plaster_volume_m3 : ℚ
  flooring_area_sqft : ℚ
  flooring_area_m2 : ℚ
  tile_area_m2 : ℚ
deriving DecidableEq

structure MaterialsSnapshot where
  concrete : ConcreteQuantities
  cement : CementQuantities
  sand : SandQuantities
  aggregate : AggregateQuantities
  steel : SteelQuantities
  masonry : MasonryQuantities
  finishing : FinishingQuantities
deriving DecidableEq

/-! ## MaterialCalculator (`calculate_materials`, calculations.py 10-249)

Each local variable of the source function becomes a definition below,
with the same name; `calculate_materials` assembles the snapshot exactly
as the source assigns the `materials` dict. -/

def FT_TO_M : ℚ := 3048 / 10000
def INCH_TO_M : ℚ := 254 / 10000
def SQFT_TO_SQM : ℚ := 92903 / 1000000

/-- `STANDARDS['cement_content_per_m3'].get(grade, m20)` (kg per m3). -/
def cement_kg_per_m3 (grade : String) : ℚ :=
  if grade = "m20" then 320 else if grade = "m25" then 360
  else if grade = "m30" then 400 else 320

/-- `STANDARDS['mix_ratios'].get(grade, m20)`: volumetric cement : sand :
aggregate parts. -/
def mix_parts (grade : String) : ℚ × ℚ × ℚ :=
  if grade = "m20" then (1, 3/2, 3) else if grade = "m25" then (1, 1, 2)
  else if grade = "m30" then (1, 3/4, 3/2) else (1, 3/2, 3)

/-- `mortar_ratio.get(mortar_mix, ratio['1:6'])`: cement and sand parts. -/
def mortar_parts (mix : String) : ℚ × ℚ :=
  if mix = "1:6" then (1, 6) else if mix = "1:4" then (1, 4)
  else if mix = "1:3" then (1, 3) else (1, 6)

def footing_vol (i : InputSet) : ℚ :=
  (i.num_footings : ℚ) * (i.footing_length * FT_TO_M) * (i.footing_width * FT_TO_M)
    * (i.footing_depth * FT_TO_M)

def pcc_vol (i : InputSet) : ℚ :=
  (i.num_footings : ℚ) * (i.footing_length * FT_TO_M) * (i.footing_width * FT_TO_M)
    * (i.pcc_thickness * INCH_TO_M)

def column_vol (i : InputSet) : ℚ :=
  (i.num_columns : ℚ) * (i.num_floors : ℚ) * (i.column_length * INCH_TO_M)
    * (i.column_width * INCH_TO_M) * (i.column_height * FT_TO_M)

def beam_vol (i : InputSet) : ℚ :=
  (i.total_beam_length * FT_TO_M) * (i.beam_width * INCH_TO_M)
    * (i.beam_depth * INCH_TO_M) * (i.num_floors : ℚ)

def slab_vol (i : InputSet) : ℚ :=
  (i.slab_area * SQFT_TO_SQM) * (i.slab_thickness * INCH_TO_M) * (i.num_floors : ℚ)

/-- `materials['concrete']['pcc_volume'] + materials['concrete']['total_rcc']`:
the already-rounded display values, as the source sums them. -/
def total_concrete (i : InputSet) : ℚ :=
  rnd 2 (pcc_vol i) + rnd 2 (footing_vol i + column_vol i + beam_vol i + slab_vol i)

def cement_for_concrete_kg (i : InputSet) : ℚ :=
  total_concrete i * cement_kg_per_m3 (lower_string i.concrete_grade)

def cement_bags_concrete (i : InputSet) : ℤ := ⌈cement_for_concrete_kg i / 50⌉

def mix_total_parts (i : InputSet) : ℚ :=
  (mix_parts (lower_string i.concrete_grade)).1 + (mix_parts (lower_string i.concrete_grade)).2.1
    + (mix_parts (lower_string i.concrete_grade)).2.2

def sand_vol (i : InputSet) : ℚ :=
  ((mix_parts (lower_string i.concrete_grade)).2.1 / mix_total_parts i) * total_concrete i

def agg_vol (i : InputSet) : ℚ :=
  ((mix_parts (lower_string i.concrete_grade)).2.2 / mix_total_parts i) * total_concrete i

def sand_mass_kg (i : InputSet) : ℚ := sand_vol i * 1600

def agg_mass_kg (i : InputSet) : ℚ := agg_vol i * 1500

def total_wall_length (i : InputSet) : ℚ :=
  (i.external_wall_length * FT_TO_M + i.internal_wall_length * FT_TO_M) * (i.num_floors : ℚ)

def wall_volume (i : InputSet) : ℚ :=
  total_wall_length i * (i.wall_thickness * INCH_TO_M) * (i.wall_height * FT_TO_M)

def mortar_volume (i : InputSet) : ℚ := wall_volume i * (10 / 100)

def mortar_total_parts (i : InputSet) : ℚ :=
  (mortar_parts i.mortar_mix).1 + (mortar_parts i.mortar_mix).2

def cement_for_mortar_kg (i : InputSet) : ℚ :=
  mortar_volume i * ((mortar_parts i.mortar_mix).1 / mortar_total_parts i) * 1440

def plaster_area_internal (i : InputSet) : ℚ :=
  total_wall_length i * (i.wall_height * FT_TO_M) * (8 / 10)

def plaster_area_external (i : InputSet) : ℚ :=
  (i.external_wall_length * FT_TO_M) * (i.num_floors : ℚ) * (i.wall_height * FT_TO_M)

def plaster_vol_internal (i : InputSet) : ℚ :=
  plaster_area_internal i * (i.internal_plaster_thickness * INCH_TO_M)

def plaster_vol_external (i : InputSet) : ℚ :=
  plaster_area_external i * (i.external_plaster_thickness * INCH_TO_M)

def total_plaster_vol (i : InputSet) : ℚ := plaster_vol_internal i + plaster_vol_external i

/-- Plaster mix is fixed at 1:3 cement : sand in the source. -/
def cement_for_plaster_kg (i : InputSet) : ℚ :=
  total_plaster_vol i * (1 / (1 + 3)) * 1440

def cement_for_mortar_bags (i : InputSet) : ℤ := ⌈cement_for_mortar_kg i / 50⌉

def cement_for_plaster_bags (i : InputSet) : ℤ := ⌈cement_for_plaster_kg i / 50⌉

def mortar_sand_vol (i : InputSet) : ℚ :=
  mortar_volume i * ((mortar_parts i.mortar_mix).2 / mortar_total_parts i)

def mortar_sand_kg (i : InputSet) : ℚ := mortar_sand_vol i * 1600

def plaster_sand_vol (i : InputSet) : ℚ := total_plaster_vol i * (3 / (1 + 3))

def plaster_sand_kg (i : InputSet) : ℚ := plaster_sand_vol i * 1600

def steel_for_footing (i : InputSet) : ℚ := footing_vol i * 90

def steel_for_column (i : InputSet) : ℚ := column_vol i * 130

def steel_for_beam (i : InputSet) : ℚ := beam_vol i * 120

def steel_for_slab (i : InputSet) : ℚ := slab_vol i * 100

def brick_size (i : InputSet) : ℚ := i.brick_length_m * i.brick_width_m * i.brick_height_m

/-- `1.0 / brick_size if brick_size > 0 else 0`. -/
def bricks_per_m3 (i : InputSet) : ℚ :=
  if 0 < brick_size i then 1 / brick_size i else 0

def bricks_required (i : InputSet) : ℚ := wall_volume i * bricks_per_m3 i

def tile_area_sqft (i : InputSet) : ℚ := ((i.tile_size : ℚ) / 12) ^ 2

/-- `(flooring_area / tile_area) if tile_area > 0 else 0`. -/
def tiles_required (i : InputSet) : ℚ :=
  if 0 < tile_area_sqft i then i.flooring_area / tile_area_sqft i else 0

def tiles_with_waste (i : InputSet) : ℚ := tiles_required i * (105 / 100)

def paint_area_m2 (i : InputSet) : ℚ := plaster_area_internal i + plaster_area_external i

def paint_required_l (i : InputSet) : ℚ := paint_area_m2 i * (i.paint_coats : ℚ) / 10

def calculate_materials (i : InputSet) : MaterialsSnapshot :=
  { concrete :=
      { pcc_volume := rnd 2 (pcc_vol i)
        footing_rcc := rnd 2 (footing_vol i)
        column_rcc := rnd 2 (column_vol i)
        beam_rcc := rnd 2 (beam_vol i)
        slab_rcc := rnd 2 (slab_vol i)
        total_rcc := rnd 2 (footing_vol i + column_vol i + beam_vol i + slab_vol i) }
    cement :=
      { for_concrete := rnd 0 (cement_bags_concrete i : ℚ)
        for_mortarbrickwork := rnd 0 (cement_for_mortar_bags i : ℚ)
        for_plaster := rnd 0 (cement_for_plaster_bags i : ℚ)
        total_bags := rnd 0 (rnd 0 (cement_bags_concrete i : ℚ)
          + rnd 0 (cement_for_mortar_bags i : ℚ) + rnd 0 (cement_for_plaster_bags i : ℚ)) }
    sand :=
      { concrete_sand_m3 := rnd 3 (sand_vol i)
        concrete_sand_kg := rnd 1 (sand_mass_kg i)
        brickwork_sand_m3 := rnd 3 (mortar_sand_vol i)
        brickwork_sand_kg := rnd 1 (mortar_sand_kg i)
        plaster_sand_m3 := rnd 3 (plaster_sand_vol i)
        plaster_sand_kg := rnd 1 (plaster_sand_kg i)
        total_sand_kg := rnd 1 (sand_mass_kg i + mortar_sand_kg i + plaster_sand_kg i) }
    aggregate :=
      { concrete_aggregate_m3 := rnd 3 (agg_vol i)
        concrete_aggregate_kg := rnd 1 (agg_mass_kg i)
        total_aggregate_kg := rnd 1 (agg_mass_kg i) }
    steel :=
      { footing_steel_kg := rnd 1 (steel_for_footing i)
        column_steel_kg := rnd 1 (steel_for_column i)
        beam_steel_kg := rnd 1 (steel_for_beam i)
        slab_steel_kg := rnd 1 (steel_for_slab i)
        total_steel_kg := rnd 1 (steel_for_footing i + steel_for_column i
          + steel_for_beam i + steel_for_slab i) }
    masonry :=
      { brick_quantity := rnd 0 (bricks_required i)
        mortar_volume_m3 := rnd 3 (mortar_volume i) }
    finishing :=
      { floor_tiles_qty := rnd 0 (tiles_with_waste i)
        paint_liters := rnd 2 (paint_required_l i)
        plaster_volume_m3 := rnd 3 (total_plaster_vol i)
        flooring_area_sqft := rnd 2 i.flooring_area
        flooring_area_m2 := rnd 3 (i.flooring_area * SQFT_TO_SQM)
        tile_area_m2 := rnd 4 (tile_area_sqft i * SQFT_TO_SQM) } }

/-! ## PlanVariantAdjuster (`generate_plan_variants`, calculations.py 252-311) -/

/-- The adjustment factor chosen by `generate_plan_variants`. -/
def adjustment_factor (plan_type : String) : ℚ :=
  if plan_type = "economy" then 108 / 100
  else if plan_type = "premium" then 95 / 100
  else 1

/-- The scaling loop of `generate_plan_variants`: every (numeric) key of
concrete is re-rounded to 2 decimals, of cement to 0, of sand / aggregate /
steel to 1; `masonry.brick_quantity` and `finishing.floor_tiles_qty` to 0;
all other masonry / finishing keys are left untouched. -/
def scale_snapshot (m : MaterialsSnapshot) (f : ℚ) : MaterialsSnapshot :=
  { concrete :=
      { pcc_volume := rnd 2 (m.concrete.pcc_volume * f)
        footing_rcc := rnd 2 (m.concrete.footing_rcc * f)
        column_rcc := rnd 2 (m.concrete.column_rcc * f)
        beam_rcc := rnd 2 (m.concrete.beam_rcc * f)
        slab_rcc := rnd 2 (m.concrete.slab_rcc * f)
        total_rcc := rnd 2 (m.concrete.total_rcc * f) }
    cement :=
      { for_concrete := rnd 0 (m.cement.for_concrete * f)
        for_mortarbrickwork := rnd 0 (m.cement.for_mortarbrickwork * f)
        for_plaster := rnd 0 (m.cement.for_plaster * f)
        total_bags := rnd 0 (m.cement.total_bags * f) }
    sand :=
      { concrete_sand_m3 := rnd 1 (m.sand.concrete_sand_m3 * f)
        concrete_sand_kg := rnd 1 (m.sand.concrete_sand_kg * f)
        brickwork_sand_m3 := rnd 1 (m.sand.brickwork_sand_m3 * f)
        brickwork_sand_kg := rnd 1 (m.sand.brickwork_sand_kg * f)
        plaster_sand_m3 := rnd 1 (m.sand.plaster_sand_m3 * f)
        plaster_sand_kg := rnd 1 (m.sand.plaster_sand_kg * f)
        total_sand_kg := rnd 1 (m.sand.total_sand_kg * f) }
    aggregate :=
      { concrete_aggregate_m3 := rnd 1 (m.aggregate.concrete_aggregate_m3 * f)
        concrete_aggregate_kg := rnd 1 (m.aggregate.concrete_aggregate_kg * f)
        total_aggregate_kg := rnd 1 (m.aggregate.total_aggregate_kg * f) }
    steel :=
      { footing_steel_kg := rnd 1 (m.steel.footing_steel_kg * f)
        column_steel_kg := rnd 1 (m.steel.column_steel_kg * f)
        beam_steel_kg := rnd 1 (m.steel.beam_steel_kg * f)
        slab_steel_kg := rnd 1 (m.steel.slab_steel_kg * f)
        total_steel_kg := rnd 1 (m.steel.total_steel_kg * f) }
    masonry :=
      { brick_quantity := rnd 0 (m.masonry.brick_quantity * f)
        mortar_volume_m3 := m.masonry.mortar_volume_m3 }
    finishing :=
      { floor_tiles_qty := rnd 0 (m.finishing.floor_tiles_qty * f)
        paint_liters := m.finishing.paint_liters
        plaster_volume_m3 := m.finishing.plaster_volume_m3
        flooring_area_sqft := m.finishing.flooring_area_sqft
        flooring_area_m2 := m.finishing.flooring_area_m2
        tile_area_m2 := m.finishing.tile_area_m2 } }

def generate_plan_variants (m : MaterialsSnapshot) (plan_type : String) :
    MaterialsSnapshot :=
  if adjustment_factor plan_type = 1 then m
  else scale_snapshot m (adjustment_factor plan_type)

/-! ## CostCalculator (`calculate_cost`, calculations.py 314-424) -/

/-- A rate table as the code sees it: a string-keyed mapping.  A lookup of
an absent key models a `KeyError`. -/
def RateTable : Type := List (String × ℚ)

def lookup_rate : List (String × ℚ) → String → Option ℚ
  | [], _ => none
  | (k2, v) :: t, k => if k2 = k then some v else lookup_rate t k

def default_rates : List (String × ℚ) :=
  [("cement_per_bag", 420), ("sand_per_m3", 1200), ("aggregate_per_m3", 900),
   ("steel_per_kg", 65), ("brick_per_100", 350), ("tile_per_sqm", 300),
   ("paint_per_liter", 500), ("plaster_per_m3", 2000)]

/-- `base_rates = custom_rates if custom_rates else default_rates`: an empty
dictionary is falsy in Python, so it falls back to the defaults too. -/
def base_rates (custom_rates : Option (List (String × ℚ))) : List (String × ℚ) :=
  match custom_rates with
  | some t => if t.isEmpty then default_rates else t
  | none => default_rates

/-- Plan-type adjustment of the whole rate table (`{k: v * 0.90 ...}`). -/
def plan_rates (plan_type : String) (base : List (String × ℚ)) : List (String × ℚ) :=
  if plan_type = "economy" then base.map (fun p => (p.1, p.2 * (90 / 100)))
  else if plan_type = "premium" then base.map (fun p => (p.1, p.2 * (115 / 100)))
  else base

/-- `rates[k]`: raises `KeyError k` when the key is absent. -/
def fetch_rate (rs : List (String × ℚ)) (k : String) : Except String ℚ :=
  match lookup_rate rs k with
  | some v => .ok v
  | none => .error k

structure ItemizedCosts where
  cement : ℚ
  sand : ℚ
  aggregate : ℚ
  steel : ℚ
  bricks : ℚ
  tiles : ℚ
  paint : ℚ
  plaster : ℚ
deriving DecidableEq

/-- Sum of the eight category costs, as `sum(material_costs.values())`. -/
def sum_itemized (c : ItemizedCosts) : ℚ :=
  c.cement + c.sand + c.aggregate + c.steel + c.bricks + c.tiles + c.paint + c.plaster

structure CostResult where
  itemized_costs : ItemizedCosts
  material_costs : ItemizedCosts
  applied_rates : List (String × ℚ)
  total_material_cost : ℚ
  cost_per_sqft : Option ℚ
  total_built_area_sqft : ℚ
deriving DecidableEq

/-- The eight per-category costs before display rounding, mirroring the
`itemized` dict (the `material_costs` dict holds the same values). -/
def itemized_raw (m : MaterialsSnapshot) (c s a st b t p pl : ℚ) : ItemizedCosts :=
  let sand_m3_read := m.sand.concrete_sand_m3 + m.sand.brickwork_sand_m3
    + m.sand.plaster_sand_m3
  let sand_m3 := if sand_m3_read = 0 ∧ m.sand.total_sand_kg ≠ 0
    then m.sand.total_sand_kg / 1600 else sand_m3_read
  let agg_m3_read := m.aggregate.concrete_aggregate_m3
  let agg_m3 := if agg_m3_read = 0 ∧ m.aggregate.concrete_aggregate_kg ≠ 0
    then m.aggregate.concrete_aggregate_kg / 1500 else agg_m3_read
  { cement := m.cement.total_bags * c
    sand := sand_m3 * s
    aggregate := agg_m3 * a
    steel := m.steel.total_steel_kg * st
    bricks := m.masonry.brick_quantity / 100 * b
    tiles := m.finishing.flooring_area_m2 * t
    paint := m.finishing.paint_liters * p
    plaster := m.finishing.plaster_volume_m3 * pl }

def round_itemized (c : ItemizedCosts) : ItemizedCosts :=
  { cement := rnd 2 c.cement, sand := rnd 2 c.sand, aggregate := rnd 2 c.aggregate
    steel := rnd 2 c.steel, bricks := rnd 2 c.bricks, tiles := rnd 2 c.tiles
    paint := rnd 2 c.paint, plaster := rnd 2 c.plaster }

/-- The result record assembled at the end of `calculate_cost`, given the
eight rates already fetched. -/
def mk_cost_result (m : MaterialsSnapshot) (rs : List (String × ℚ))
    (c s a st b t p pl : ℚ) : CostResult :=
  let it := itemized_raw m c s a st b t p pl
  let total_material_cost := sum_itemized it
  let total_built_area_sqft := m.finishing.flooring_area_sqft
  { itemized_costs := round_itemized it
    material_costs := round_itemized it
    applied_rates := rs
    total_material_cost := rnd 2 total_material_cost
    cost_per_sqft := if total_built_area_sqft = 0 then none
      else some (rnd 2 (total_material_cost / total_built_area_sqft))
    total_built_area_sqft := rnd 2 total_built_area_sqft }

/-- `calculate_cost(materials, plan_type, custom_rates)`.  The eight rates
are read with `rates[key]` in source order; a missing key aborts the call
with that key as the error (Python's `KeyError`). -/
def calculate_cost (m : MaterialsSnapshot) (plan_type : String)
    (custom_rates : Option (List (String × ℚ))) : Except String CostResult := do
  let rs := plan_rates plan_type (base_rates custom_rates)
  let c ← fetch_rate rs "cement_per_bag"
  let s ← fetch_rate rs "sand_per_m3"
  let a ← fetch_rate rs "aggregate_per_m3"
  let st ← fetch_rate rs "steel_per_kg"
  let b ← fetch_rate rs "brick_per_100"
  let t ← fetch_rate rs "tile_per_sqm"
  let p ← fetch_rate rs "paint_per_liter"
  let pl ← fetch_rate rs "plaster_per_m3"
  return mk_cost_result m rs c s a st b t p pl

/-! ## BOQAssembler (`generate_boq`, calculations.py 427-457) -/

structure BOQRow where
  item : String
  quantity : ℚ
  unit : String
  rate : Option ℚ
  amount : Option ℚ
deriving DecidableEq

def generate_boq (m : MaterialsSnapshot) (cost : CostResult) : List BOQRow :=
  [{ item := "PCC (Plain Cement Concrete)", quantity := m.concrete.pcc_volume,
     unit := "m3", rate := none, amount := none },
   { item := "RCC Footing Concrete", quantity := m.concrete.footing_rcc,
     unit := "m3", rate := none, amount := none },
   { item := "RCC Column Concrete", quantity := m.concrete.column_rcc,
     unit := "m3", rate := none, amount := none },
   { item := "RCC Beam Concrete", quantity := m.concrete.beam_rcc,
     unit := "m3", rate := none, amount := none },
   { item := "RCC Slab Concrete", quantity := m.concrete.slab_rcc,
     unit := "m3", rate := none, amount := none },
   { item := "Cement", quantity := m.cement.total_bags, unit := "bags",
     rate := lookup_rate cost.applied_rates "cement_per_bag",
     amount := some cost.itemized_costs.cement },
   { item := "Sand",
     quantity := rnd 3 (m.sand.concrete_sand_m3 + m.sand.brickwork_sand_m3
       + m.sand.plaster_sand_m3),
     unit := "m3", rate := lookup_rate cost.applied_rates "sand_per_m3",
     amount := some cost.itemized_costs.sand },
   { item := "Aggregate", quantity := m.aggregate.concrete_aggregate_m3, unit := "m3",
     rate := lookup_rate cost.applied_rates "aggregate_per_m3",
     amount := some cost.itemized_costs.aggregate },
   { item := "Steel Reinforcement", quantity := m.steel.total_steel_kg, unit := "kg",
     rate := lookup_rate cost.applied_rates "steel_per_kg",
     amount := some cost.itemized_costs.steel },
   { item := "Bricks", quantity := m.masonry.brick_quantity, unit := "nos",
     rate := lookup_rate cost.applied_rates "brick_per_100",
     amount := some cost.itemized_costs.bricks },
   { item := "Floor Tiles", quantity := m.finishing.flooring_area_m2, unit := "m2",
     rate := lookup_rate cost.applied_rates "tile_per_sqm",
     amount := some cost.itemized_costs.tiles },
   { item := "Paint", quantity := m.finishing.paint_liters, unit := "liters",
     rate := lookup_rate cost.applied_rates "paint_per_liter",
     amount := some cost.itemized_costs.paint },
   { item := "Plaster", quantity := m.finishing.plaster_volume_m3, unit := "m3",
     rate := lookup_rate cost.applied_rates "plaster_per_m3",
     amount := some cost.itemized_costs.plaster }]

/-! ## Concrete values and helper accessors used by the verification -/

/-- The scenario of spec §8: 30×40 ft plot, 2 floors, 8 footings 4×4×1 ft,
PCC 3 in, 8 columns 12×12 in × 10 ft, 200 ft of 9×12 in beams, 1200 sqft
slab 5 in thick, 140/80 ft walls 9 in × 10 ft, plaster 0.5/0.75 in,
1200 sqft flooring, 12 in tiles, 2 coats, M20, mortar 1:6, default bricks. -/
def scenario_inputs : InputSet :=
  { num_floors := 2, structure_type := "rcc_framed", num_footings := 8,
    footing_length := 4, footing_width := 4, footing_depth := 1, pcc_thickness := 3,
    num_columns := 8, column_length := 12, column_width := 12, column_height := 10,
    total_beam_length := 200, beam_width := 9, beam_depth := 12,
    slab_area := 1200, slab_thickness := 5, concrete_grade := "m20", mortar_mix := "1:6",
    external_wall_length := 140, internal_wall_length := 80, wall_thickness := 9,
    wall_height := 10, internal_plaster_thickness := 1/2,
    external_plaster_thickness := 3/4, brick_length_m := 230/1000,
    brick_width_m := 115/1000, brick_height_m := 75/1000,
    flooring_area := 1200, tile_size := 12, paint_coats := 2 }

/-- An all-zero materials snapshot (handy base for concrete test snapshots). -/
def zero_snapshot : MaterialsSnapshot :=
  { concrete := ⟨0, 0, 0, 0, 0, 0⟩, cement := ⟨0, 0, 0, 0⟩,
    sand := ⟨0, 0, 0, 0, 0, 0, 0⟩, aggregate := ⟨0, 0, 0⟩,
    steel := ⟨0, 0, 0, 0, 0⟩, masonry := ⟨0, 0⟩, finishing := ⟨0, 0, 0, 0, 0, 0⟩ }

def empty_cost_result : CostResult :=
  { itemized_costs := ⟨0, 0, 0, 0, 0, 0, 0, 0⟩, material_costs := ⟨0, 0, 0, 0, 0, 0, 0, 0⟩,
    applied_rates := [], total_material_cost := 0, cost_per_sqft := none,
    total_built_area_sqft := 0 }

/-- Unpack a successful cost computation (errors yield the empty record). -/
def result_or_empty (e : Except String CostResult) : CostResult :=
  match e with
  | .ok r => r
  | .error _ => empty_cost_result

def cost_total (e : Except String CostResult) : ℚ := (result_or_empty e).total_material_cost

def cost_psf (e : Except String CostResult) : Option ℚ := (result_or_empty e).cost_per_sqft

def cost_itemized (e : Except String CostResult) : ItemizedCosts :=
  (result_or_empty e).itemized_costs

/-- The 8 rate keys `calculate_cost` reads, in source access order. -/
def required_rate_keys : List String :=
  ["cement_per_bag", "sand_per_m3", "aggregate_per_m3", "steel_per_kg",
   "brick_per_100", "tile_per_sqm", "paint_per_liter", "plaster_per_m3"]

/-- The 27 fields `generate_plan_variants` scales, each paired with the
decimal precision the adjustment loop re-rounds it to (2 for concrete, 0 for
cement / bricks / tiles, 1 for sand, aggregate and steel). -/
def adjusted_field_precs (m : MaterialsSnapshot) : List (ℕ × ℚ) :=
  [(2, m.concrete.pcc_volume), (2, m.concrete.footing_rcc), (2, m.concrete.column_rcc),
   (2, m.concrete.beam_rcc), (2, m.concrete.slab_rcc), (2, m.concrete.total_rcc),
   (0, m.cement.for_concrete), (0, m.cement.for_mortarbrickwork),
   (0, m.cement.for_plaster), (0, m.cement.total_bags),
   (1, m.sand.concrete_sand_m3), (1, m.sand.concrete_sand_kg),
   (1, m.sand.brickwork_sand_m3), (1, m.sand.brickwork_sand_kg),
   (1, m.sand.plaster_sand_m3), (1, m.sand.plaster_sand_kg), (1, m.sand.total_sand_kg),
   (1, m.aggregate.concrete_aggregate_m3), (1, m.aggregate.concrete_aggregate_kg),
   (1, m.aggregate.total_aggregate_kg),
   (1, m.steel.footing_steel_kg), (1, m.steel.column_steel_kg),
   (1, m.steel.beam_steel_kg), (1, m.steel.slab_steel_kg), (1, m.steel.total_steel_kg),
   (0, m.masonry.brick_quantity), (0, m.finishing.floor_tiles_qty)]

/-- A snapshot is variant-aligned when every adjusted field is non-negative
and already an exact multiple of the precision the variant loop rounds it
to. -/
def variant_aligned (m : MaterialsSnapshot) : Prop :=
  ∀ p ∈ adjusted_field_precs m, 0 ≤ p.2 ∧ rnd p.1 p.2 = p.2

/-- Every listed field sits exactly at the paired decimal precision. -/
def all_at_prec (l : List (ℕ × ℚ)) : Prop := ∀ p ∈ l, rnd p.1 p.2 = p.2

/-- The 27 adjusted fields of two snapshots, paired up positionally. -/
def adjusted_pairs (x y : MaterialsSnapshot) : List (ℚ × ℚ) :=
  [(x.concrete.pcc_volume, y.concrete.pcc_volume),
   (x.concrete.footing_rcc, y.concrete.footing_rcc),
   (x.concrete.column_rcc, y.concrete.column_rcc),
   (x.concrete.beam_rcc, y.concrete.beam_rcc),
   (x.concrete.slab_rcc, y.concrete.slab_rcc),
   (x.concrete.total_rcc, y.concrete.total_rcc),
   (x.cement.for_concrete, y.cement.for_concrete),
   (x.cement.for_mortarbrickwork, y.cement.for_mortarbrickwork),
   (x.cement.for_plaster, y.cement.for_plaster),
   (x.cement.total_bags, y.cement.total_bags),
   (x.sand.concrete_sand_m3, y.sand.concrete_sand_m3),
   (x.sand.concrete_sand_kg, y.sand.concrete_sand_kg),
   (x.sand.brickwork_sand_m3, y.sand.brickwork_sand_m3),
   (x.sand.brickwork_sand_kg, y.sand.brickwork_sand_kg),
   (x.sand.plaster_sand_m3, y.sand.plaster_sand_m3),
   (x.sand.plaster_sand_kg, y.sand.plaster_sand_kg),
   (x.sand.total_sand_kg, y.sand.total_sand_kg),
   (x.aggregate.concrete_aggregate_m3, y.aggregate.concrete_aggregate_m3),
   (x.aggregate.concrete_aggregate_kg, y.aggregate.concrete_aggregate_kg),
   (x.aggregate.total_aggregate_kg, y.aggregate.total_aggregate_kg),
   (x.steel.footing_steel_kg, y.steel.footing_steel_kg),
   (x.steel.column_steel_kg, y.steel.column_steel_kg),
   (x.steel.beam_steel_kg, y.steel.beam_steel_kg),
   (x.steel.slab_steel_kg, y.steel.slab_steel_kg),
   (x.steel.total_steel_kg, y.steel.total_steel_kg),
   (x.masonry.brick_quantity, y.masonry.brick_quantity),
   (x.finishing.floor_tiles_qty, y.finishing.floor_tiles_qty)]

/-- Pointwise `≥` between the first and second components. -/
def pairs_ge (l : List (ℚ × ℚ)) : Prop := ∀ p ∈ l, p.2 ≤ p.1

/-- Snapshot used to refute the C2 reported-totals equality. -/
def c2_snapshot : MaterialsSnapshot :=
  { zero_snapshot with
    cement := { zero_snapshot.cement with total_bags := 1 }
    sand := { zero_snapshot.sand with concrete_sand_m3 := 1 } }

/-- Rate table whose tiny rates expose the reported-rounding discrepancy. -/
def c2_rates : List (String × ℚ) :=
  [("cement_per_bag", 1/250), ("sand_per_m3", 1/250), ("aggregate_per_m3", 0),
   ("steel_per_kg", 0), ("brick_per_100", 0), ("tile_per_sqm", 0),
   ("paint_per_liter", 0), ("plaster_per_m3", 0)]

/-- Snapshot whose sand m³ field is positive but below half of the variant
rounding unit, refuting the unconditional plan ordering. -/
def c7_snapshot : MaterialsSnapshot :=
  { zero_snapshot with sand := { zero_snapshot.sand with concrete_sand_m3 := 1/250 } }

/-- A realistic variant-aligned snapshot (scenario magnitudes, every
adjusted field at its variant precision). -/
def c7_aligned_snapshot : MaterialsSnapshot :=
  { concrete := ⟨91/100, 181/50, 453/100, 17/2, 708/25, 4497/100⟩,
    cement := ⟨294, 39, 66, 399⟩,
    sand := ⟨25/2, 200203/10, 8, 128161/10, 34/5, 109296/10, 437661/10⟩,
    aggregate := ⟨25, 187691/5, 187691/5⟩,
    steel := ⟨1631/5, 589, 5097/5, 28317/10, 47663/10⟩,
    masonry := ⟨47106, 1869/200⟩,
    finishing := ⟨1260, 11743/100, 9109/1000, 1200, 27871/250, 929/10000⟩ }

/-- Snapshot with a non-zero flooring area (cost-per-sqft witness). -/
def c5_snapshot : MaterialsSnapshot :=
  { zero_snapshot with
    finishing := { zero_snapshot.finishing with flooring_area_sqft := 100 } }

/-- Whether a cost computation succeeded. -/
def is_ok (e : Except String CostResult) : Bool :=
  match e with
  | .ok _ => true
  | .error _ => false

deriving instance DecidableEq for Except

instance (m : MaterialsSnapshot) : Decidable (variant_aligned m) := by
  unfold variant_aligned
  exact List.decidableBAll _ _

/-! ## Structural lemmas about the embedded functions -/

lemma abs_rnd_sub_le (d : ℕ) (x : ℚ) : |rnd d x - x| ≤ 1 / (2 * 10 ^ d) := by
  have hp : (0 : ℚ) < 10 ^ d := by positivity
  have hx : rnd d x - x = ((round (x * 10 ^ d) : ℤ) - x * 10 ^ d) / 10 ^ d := by
    rw [rnd]; field_simp; ring
  rw [hx, abs_div, abs_of_pos hp]
  have h2 : |((round (x * 10 ^ d) : ℤ) : ℚ) - x * 10 ^ d| ≤ 1 / 2 := by
    rw [abs_sub_comm]; exact abs_sub_round (x * 10 ^ d)
  rw [div_le_div_iff₀ hp (by positivity)]
  calc |((round (x * 10 ^ d) : ℤ) : ℚ) - x * 10 ^ d| * (2 * 10 ^ d)
      ≤ (1 / 2) * (2 * 10 ^ d) := by
        exact mul_le_mul_of_nonneg_right h2 (by positivity)
    _ = 1 * 10 ^ d := by ring

lemma rnd_mono (d : ℕ) {x y : ℚ} (h : x ≤ y) : rnd d x ≤ rnd d y := by
  have hp : (0 : ℚ) < 10 ^ d := by positivity
  have hr : round (x * 10 ^ d) ≤ round (y * 10 ^ d) := by
    rw [round_eq, round_eq]
    exact Int.floor_le_floor (by nlinarith)
  rw [rnd, rnd, div_le_div_iff_of_pos_right hp]
  exact_mod_cast hr

lemma rnd_rnd (d : ℕ) (x : ℚ) : rnd d (rnd d x) = rnd d x := by
  have hp : (10 : ℚ) ^ d ≠ 0 := by positivity
  unfold rnd
  rw [div_mul_cancel₀ _ hp, round_intCast]

lemma rnd_zero (d : ℕ) : rnd d 0 = 0 := by
  simp [rnd]

/-- Sum of three already-`rnd 0`-rounded values is fixed by `rnd 0`
(the code's cement bag counts are integers, so their total is exact). -/
lemma rnd0_sum3 (a b c : ℚ) :
    rnd 0 (rnd 0 a + rnd 0 b + rnd 0 c) = rnd 0 a + rnd 0 b + rnd 0 c := by
  simp only [rnd, pow_zero, mul_one, div_one]
  rw [show ((round a : ℤ) : ℚ) + ((round b : ℤ) : ℚ) + ((round c : ℤ) : ℚ)
        = (((round a + round b + round c : ℤ)) : ℚ) by push_cast; ring,
      round_intCast]

/-- Rounding a sum of three terms versus summing the three roundings. -/
lemma rnd_sum3 (d : ℕ) (a b c : ℚ) :
    |rnd d (a + b + c) - (rnd d a + rnd d b + rnd d c)| ≤ 4 / (2 * 10 ^ d) := by
  have h0 := abs_rnd_sub_le d (a + b + c)
  have h1 := abs_rnd_sub_le d a
  have h2 := abs_rnd_sub_le d b
  have h3 := abs_rnd_sub_le d c
  have hb : (4 : ℚ) / (2 * 10 ^ d)
      = 1 / (2 * 10 ^ d) + 1 / (2 * 10 ^ d) + 1 / (2 * 10 ^ d) + 1 / (2 * 10 ^ d) := by
    ring
  rw [hb]; rw [abs_le] at *
  constructor <;> [linarith [h0.1, h1.2, h2.2, h3.2]; linarith [h0.2, h1.1, h2.1, h3.1]]

/-- Rounding a sum of four terms versus summing the four roundings. -/
lemma rnd_sum4 (d : ℕ) (a b c e : ℚ) :
    |rnd d (a + b + c + e) - (rnd d a + rnd d b + rnd d c + rnd d e)|
      ≤ 5 / (2 * 10 ^ d) := by
  have h0 := abs_rnd_sub_le d (a + b + c + e)
  have h1 := abs_rnd_sub_le d a
  have h2 := abs_rnd_sub_le d b
  have h3 := abs_rnd_sub_le d c
  have h4 := abs_rnd_sub_le d e
  have hb : (5 : ℚ) / (2 * 10 ^ d)
      = 1 / (2 * 10 ^ d) + 1 / (2 * 10 ^ d) + 1 / (2 * 10 ^ d) + 1 / (2 * 10 ^ d)
        + 1 / (2 * 10 ^ d) := by
    ring
  rw [hb]; rw [abs_le] at *
  constructor <;>
    [linarith [h0.1, h1.2, h2.2, h3.2, h4.2]; linarith [h0.2, h1.1, h2.1, h3.1, h4.1]]

/-- Rounding a sum of eight terms versus summing the eight roundings. -/
lemma rnd_sum8 (d : ℕ) (a b c e f g h k : ℚ) :
    |rnd d (a + b + c + e + f + g + h + k)
        - (rnd d a + rnd d b + rnd d c + rnd d e + rnd d f + rnd d g + rnd d h + rnd d k)|
      ≤ 9 / (2 * 10 ^ d) := by
  have h0 := abs_rnd_sub_le d (a + b + c + e + f + g + h + k)
  have h1 := abs_rnd_sub_le d a
  have h2 := abs_rnd_sub_le d b
  have h3 := abs_rnd_sub_le d c
  have h4 := abs_rnd_sub_le d e
  have h5 := abs_rnd_sub_le d f
  have h6 := abs_rnd_sub_le d g
  have h7 := abs_rnd_sub_le d h
  have h8 := abs_rnd_sub_le d k
  have hb : (9 : ℚ) / (2 * 10 ^ d)
      = 1 / (2 * 10 ^ d) + 1 / (2 * 10 ^ d) + 1 / (2 * 10 ^ d) + 1 / (2 * 10 ^ d)
        + 1 / (2 * 10 ^ d) + 1 / (2 * 10 ^ d) + 1 / (2 * 10 ^ d) + 1 / (2 * 10 ^ d)
        + 1 / (2 * 10 ^ d) := by
    ring
  rw [hb]; rw [abs_le] at *
  constructor <;>
    [linarith [h0.1, h1.2, h2.2, h3.2, h4.2, h5.2, h6.2, h7.2, h8.2];
     linarith [h0.2, h1.1, h2.1, h3.1, h4.1, h5.1, h6.1, h7.1, h8.1]]

/-- Rounding a scaled total versus summing the roundings of three scaled
components, given the unscaled total was within `B` of the component sum. -/
lemma rnd_scale3 (d : ℕ) (f B T a b c : ℚ) (hf0 : 0 ≤ f) (hf1 : f ≤ 108 / 100)
    (hT : |T - (a + b + c)| ≤ B) :
    |rnd d (T * f) - (rnd d (a * f) + rnd d (b * f) + rnd d (c * f))|
      ≤ 4 / (2 * 10 ^ d) + (108 / 100) * B := by
  have h0 := abs_rnd_sub_le d (T * f)
  have h1 := abs_rnd_sub_le d (a * f)
  have h2 := abs_rnd_sub_le d (b * f)
  have h3 := abs_rnd_sub_le d (c * f)
  have hB0 : 0 ≤ B := le_trans (abs_nonneg _) hT
  have hb : (4 : ℚ) / (2 * 10 ^ d) + (108 / 100) * B
      = 1 / (2 * 10 ^ d) + 1 / (2 * 10 ^ d) + 1 / (2 * 10 ^ d) + 1 / (2 * 10 ^ d)
        + (108 / 100) * B := by
    ring
  rw [hb]; rw [abs_le] at *
  have hu : f * (T - (a + b + c)) ≤ (108 / 100) * B := by nlinarith [hT.2]
  have hl : -((108 / 100) * B) ≤ f * (T - (a + b + c)) := by nlinarith [hT.1]
  constructor <;>
    [nlinarith [h0.1, h1.2, h2.2, h3.2, hl]; nlinarith [h0.2, h1.1, h2.1, h3.1, hu]]

/-- Rounding a scaled total versus summing the roundings of four scaled
components, given the unscaled total was within `B` of the component sum. -/
lemma rnd_scale4 (d : ℕ) (f B T a b c e : ℚ) (hf0 : 0 ≤ f) (hf1 : f ≤ 108 / 100)
    (hT : |T - (a + b + c + e)| ≤ B) :
    |rnd d (T * f) - (rnd d (a * f) + rnd d (b * f) + rnd d (c * f) + rnd d (e * f))|
      ≤ 5 / (2 * 10 ^ d) + (108 / 100) * B := by
  have h0 := abs_rnd_sub_le d (T * f)
  have h1 := abs_rnd_sub_le d (a * f)
  have h2 := abs_rnd_sub_le d (b * f)
  have h3 := abs_rnd_sub_le d (c * f)
  have h4 := abs_rnd_sub_le d (e * f)
  have hB0 : 0 ≤ B := le_trans (abs_nonneg _) hT
  have hb : (5 : ℚ) / (2 * 10 ^ d) + (108 / 100) * B
      = 1 / (2 * 10 ^ d) + 1 / (2 * 10 ^ d) + 1 / (2 * 10 ^ d) + 1 / (2 * 10 ^ d)
        + 1 / (2 * 10 ^ d) + (108 / 100) * B := by
    ring
  rw [hb]; rw [abs_le] at *
  have hu : f * (T - (a + b + c + e)) ≤ (108 / 100) * B := by nlinarith [hT.2]
  have hl : -((108 / 100) * B) ≤ f * (T - (a + b + c + e)) := by nlinarith [hT.1]
  constructor <;>
    [nlinarith [h0.1, h1.2, h2.2, h3.2, h4.2, hl]; nlinarith [h0.2, h1.1, h2.1, h3.1, h4.1, hu]]

/-- A value already at precision `d` is not decreased by scaling by `1.08`
and re-rounding at precision `d`. -/
lemma le_rnd_scale_up (d : ℕ) (v : ℚ) (h : 0 ≤ v ∧ rnd d v = v) :
    v ≤ rnd d (v * (108 / 100)) := by
  have hm : v ≤ v * (108 / 100) := by nlinarith [h.1]
  calc v = rnd d v := h.2.symm
    _ ≤ rnd d (v * (108 / 100)) := rnd_mono d hm

/-- A value already at precision `d` is not increased by scaling by `0.95`
and re-rounding at precision `d`. -/
lemma rnd_scale_down_le (d : ℕ) (v : ℚ) (h : 0 ≤ v ∧ rnd d v = v) :
    rnd d (v * (95 / 100)) ≤ v := by
  have hm : v * (95 / 100) ≤ v := by nlinarith [h.1]
  calc rnd d (v * (95 / 100)) ≤ rnd d v := rnd_mono d hm
    _ = v := h.2

lemma gpv_economy (m : MaterialsSnapshot) :
    generate_plan_variants m "economy" = scale_snapshot m (108 / 100) := by
  have h1 : adjustment_factor "economy" = 108 / 100 := by decide
  unfold generate_plan_variants
  rw [h1]
  norm_num

lemma gpv_premium (m : MaterialsSnapshot) :
    generate_plan_variants m "premium" = scale_snapshot m (95 / 100) := by
  have h1 : adjustment_factor "premium" = 95 / 100 := by decide
  unfold generate_plan_variants
  rw [h1]
  norm_num

lemma gpv_other (m : MaterialsSnapshot) (plan_type : String)
    (h1 : plan_type ≠ "economy") (h2 : plan_type ≠ "premium") :
    generate_plan_variants m plan_type = m := by
  simp [generate_plan_variants, adjustment_factor, h1, h2]

lemma lookup_rate_scale (b : List (String × ℚ)) (c : ℚ) (k : String) :
    lookup_rate (b.map (fun p => (p.1, p.2 * c))) k
      = (lookup_rate b k).map (fun v => v * c) := by
  induction b with
  | nil => rfl
  | cons hd tl ih =>
    by_cases hk : hd.1 = k <;> simp [lookup_rate, hk, ih]

lemma lookup_plan_rates_none (plan_type : String) (b : List (String × ℚ)) (k : String) :
    lookup_rate (plan_rates plan_type b) k = none ↔ lookup_rate b k = none := by
  unfold plan_rates
  by_cases h1 : plan_type = "economy" <;> by_cases h2 : plan_type = "premium" <;>
    simp [h1, h2, lookup_rate_scale]

/-- A successful `calculate_cost` call determines its result record and
implies every one of the eight rate fetches succeeded. -/
lemma calculate_cost_ok_destruct (m : MaterialsSnapshot) (plan_type : String)
    (custom_rates : Option (List (String × ℚ))) (r : CostResult)
    (h : calculate_cost m plan_type custom_rates = .ok r) :
    ∃ c s a st b t p pl,
      fetch_rate (plan_rates plan_type (base_rates custom_rates)) "cement_per_bag" = .ok c
      ∧ fetch_rate (plan_rates plan_type (base_rates custom_rates)) "sand_per_m3" = .ok s
      ∧ fetch_rate (plan_rates plan_type (base_rates custom_rates)) "aggregate_per_m3" = .ok a
      ∧ fetch_rate (plan_rates plan_type (base_rates custom_rates)) "steel_per_kg" = .ok st
      ∧ fetch_rate (plan_rates plan_type (base_rates custom_rates)) "brick_per_100" = .ok b
      ∧ fetch_rate (plan_rates plan_type (base_rates custom_rates)) "tile_per_sqm" = .ok t
      ∧ fetch_rate (plan_rates plan_type (base_rates custom_rates)) "paint_per_liter" = .ok p
      ∧ fetch_rate (plan_rates plan_type (base_rates custom_rates)) "plaster_per_m3" = .ok pl
      ∧ r = mk_cost_result m (plan_rates plan_type (base_rates custom_rates)) c s a st b t p pl := by
  unfold calculate_cost at h
  simp only [bind, Except.bind] at h
  cases h1 : fetch_rate (plan_rates plan_type (base_rates custom_rates)) "cement_per_bag" with
  | error e => rw [h1] at h; exact absurd h (by simp)
  | ok c =>
  rw [h1] at h
  cases h2 : fetch_rate (plan_rates plan_type (base_rates custom_rates)) "sand_per_m3" with
  | error e => rw [h2] at h; exact absurd h (by simp)
  | ok s =>
  rw [h2] at h
  cases h3 : fetch_rate (plan_rates plan_type (base_rates custom_rates)) "aggregate_per_m3" with
  | error e => rw [h3] at h; exact absurd h (by simp)
  | ok a =>
  rw [h3] at h
  cases h4 : fetch_rate (plan_rates plan_type (base_rates custom_rates)) "steel_per_kg" with
  | error e => rw [h4] at h; exact absurd h (by simp)
  | ok st =>
  rw [h4] at h
  cases h5 : fetch_rate (plan_rates plan_type (base_rates custom_rates)) "brick_per_100" with
  | error e => rw [h5] at h; exact absurd h (by simp)
  | ok b =>
  rw [h5] at h
  cases h6 : fetch_rate (plan_rates plan_type (base_rates custom_rates)) "tile_per_sqm" with
  | error e => rw [h6] at h; exact absurd h (by simp)
  | ok t =>
  rw [h6] at h
  cases h7 : fetch_rate (plan_rates plan_type (base_rates custom_rates)) "paint_per_liter" with
  | error e => rw [h7] at h; exact absurd h (by simp)
  | ok p =>
  rw [h7] at h
  cases h8 : fetch_rate (plan_rates plan_type (base_rates custom_rates)) "plaster_per_m3" with
  | error e => rw [h8] at h; exact absurd h (by simp)
  | ok pl =>
  rw [h8] at h
  simp only [pure, Except.pure, Except.ok.injEq] at h
  exact ⟨c, s, a, st, b, t, p, pl, rfl, rfl, rfl, rfl, rfl, rfl, rfl, rfl, h.symm⟩

/-! ## The claims -/

/-- C1: for every input set and every plan (economy / standard / premium —
proved for every plan string), both the snapshot produced by
`calculate_materials` and the snapshot produced from it by
`generate_plan_variants` satisfy, within rounding: `concrete.total_rcc` is
the sum of the four element RCC volumes, `cement.total_bags` is the sum of
its three components (exactly, in the base snapshot), `steel.total_steel_kg`
is the sum of the four element steel masses, and `sand.total_sand_kg` is the
sum of the three sand masses. -/
theorem C1_snapshot_totals_within_rounding (i : InputSet) (plan_type : String) :
    |(calculate_materials i).concrete.total_rcc
        - ((calculate_materials i).concrete.footing_rcc
          + (calculate_materials i).concrete.column_rcc
          + (calculate_materials i).concrete.beam_rcc
          + (calculate_materials i).concrete.slab_rcc)| ≤ 1 / 40
    ∧ (calculate_materials i).cement.total_bags
        = (calculate_materials i).cement.for_concrete
          + (calculate_materials i).cement.for_mortarbrickwork
          + (calculate_materials i).cement.for_plaster
    ∧ |(calculate_materials i).steel.total_steel_kg
        - ((calculate_materials i).steel.footing_steel_kg
          + (calculate_materials i).steel.column_steel_kg
          + (calculate_materials i).steel.beam_steel_kg
          + (calculate_materials i).steel.slab_steel_kg)| ≤ 1 / 4
    ∧ |(calculate_materials i).sand.total_sand_kg
        - ((calculate_materials i).sand.concrete_sand_kg
          + (calculate_materials i).sand.brickwork_sand_kg
          + (calculate_materials i).sand.plaster_sand_kg)| ≤ 1 / 5
    ∧ |(generate_plan_variants (calculate_materials i) plan_type).concrete.total_rcc
        - ((generate_plan_variants (calculate_materials i) plan_type).concrete.footing_rcc
          + (generate_plan_variants (calculate_materials i) plan_type).concrete.column_rcc
          + (generate_plan_variants (calculate_materials i) plan_type).concrete.beam_rcc
          + (generate_plan_variants (calculate_materials i) plan_type).concrete.slab_rcc)|
        ≤ 13 / 250
    ∧ |(generate_plan_variants (calculate_materials i) plan_type).cement.total_bags
        - ((generate_plan_variants (calculate_materials i) plan_type).cement.for_concrete
          + (generate_plan_variants (calculate_materials i) plan_type).cement.for_mortarbrickwork
          + (generate_plan_variants (calculate_materials i) plan_type).cement.for_plaster)| ≤ 2
    ∧ |(generate_plan_variants (calculate_materials i) plan_type).steel.total_steel_kg
        - ((generate_plan_variants (calculate_materials i) plan_type).steel.footing_steel_kg
          + (generate_plan_variants (calculate_materials i) plan_type).steel.column_steel_kg
          + (generate_plan_variants (calculate_materials i) plan_type).steel.beam_steel_kg
          + (generate_plan_variants (calculate_materials i) plan_type).steel.slab_steel_kg)|
        ≤ 13 / 25
    ∧ |(generate_plan_variants (calculate_materials i) plan_type).sand.total_sand_kg
        - ((generate_plan_variants (calculate_materials i) plan_type).sand.concrete_sand_kg
          + (generate_plan_variants (calculate_materials i) plan_type).sand.brickwork_sand_kg
          + (generate_plan_variants (calculate_materials i) plan_type).sand.plaster_sand_kg)|
        ≤ 52 / 125 := by
  have hc0 : |rnd 2 (footing_vol i + column_vol i + beam_vol i + slab_vol i)
      - (rnd 2 (footing_vol i) + rnd 2 (column_vol i) + rnd 2 (beam_vol i)
        + rnd 2 (slab_vol i))| ≤ 1 / 40 := by
    calc _ ≤ (5 : ℚ) / (2 * 10 ^ 2) :=
        rnd_sum4 2 (footing_vol i) (column_vol i) (beam_vol i) (slab_vol i)
      _ = 1 / 40 := by norm_num
  have hcem0 : rnd 0 (rnd 0 (cement_bags_concrete i : ℚ) + rnd 0 (cement_for_mortar_bags i : ℚ)
        + rnd 0 (cement_for_plaster_bags i : ℚ))
      = rnd 0 (cement_bags_concrete i : ℚ) + rnd 0 (cement_for_mortar_bags i : ℚ)
        + rnd 0 (cement_for_plaster_bags i : ℚ) := rnd0_sum3 _ _ _
  have hst0 : |rnd 1 (steel_for_footing i + steel_for_column i + steel_for_beam i
        + steel_for_slab i)
      - (rnd 1 (steel_for_footing i) + rnd 1 (steel_for_column i) + rnd 1 (steel_for_beam i)
        + rnd 1 (steel_for_slab i))| ≤ 1 / 4 := by
    calc _ ≤ (5 : ℚ) / (2 * 10 ^ 1) :=
        rnd_sum4 1 (steel_for_footing i) (steel_for_column i) (steel_for_beam i)
          (steel_for_slab i)
      _ = 1 / 4 := by norm_num
  have hsa0 : |rnd 1 (sand_mass_kg i + mortar_sand_kg i + plaster_sand_kg i)
      - (rnd 1 (sand_mass_kg i) + rnd 1 (mortar_sand_kg i) + rnd 1 (plaster_sand_kg i))|
      ≤ 1 / 5 := by
    calc _ ≤ (4 : ℚ) / (2 * 10 ^ 1) :=
        rnd_sum3 1 (sand_mass_kg i) (mortar_sand_kg i) (plaster_sand_kg i)
      _ = 1 / 5 := by norm_num
  have hvar : ∀ f : ℚ, 0 ≤ f → f ≤ 108 / 100 →
      |rnd 2 ((calculate_materials i).concrete.total_rcc * f)
        - (rnd 2 ((calculate_materials i).concrete.footing_rcc * f)
          + rnd 2 ((calculate_materials i).concrete.column_rcc * f)
          + rnd 2 ((calculate_materials i).concrete.beam_rcc * f)
          + rnd 2 ((calculate_materials i).concrete.slab_rcc * f))| ≤ 13 / 250
      ∧ |rnd 0 ((calculate_materials i).cement.total_bags * f)
        - (rnd 0 ((calculate_materials i).cement.for_concrete * f)
          + rnd 0 ((calculate_materials i).cement.for_mortarbrickwork * f)
          + rnd 0 ((calculate_materials i).cement.for_plaster * f))| ≤ 2
      ∧ |rnd 1 ((calculate_materials i).steel.total_steel_kg * f)
        - (rnd 1 ((calculate_materials i).steel.footing_steel_kg * f)
          + rnd 1 ((calculate_materials i).steel.column_steel_kg * f)
          + rnd 1 ((calculate_materials i).steel.beam_steel_kg * f)
          + rnd 1 ((calculate_materials i).steel.slab_steel_kg * f))| ≤ 13 / 25
      ∧ |rnd 1 ((calculate_materials i).sand.total_sand_kg * f)
        - (rnd 1 ((calculate_materials i).sand.concrete_sand_kg * f)
          + rnd 1 ((calculate_materials i).sand.brickwork_sand_kg * f)
          + rnd 1 ((calculate_materials i).sand.plaster_sand_kg * f))| ≤ 52 / 125 := by
    intro f hf0 hf1
    refine ⟨?_, ?_, ?_, ?_⟩
    · simp only [calculate_materials]
      calc _ ≤ (5 : ℚ) / (2 * 10 ^ 2) + (108 / 100) * (1 / 40) :=
          rnd_scale4 2 f (1 / 40) _ _ _ _ _ hf0 hf1 hc0
        _ = 13 / 250 := by norm_num
    · simp only [calculate_materials]
      calc _ ≤ (4 : ℚ) / (2 * 10 ^ 0) + (108 / 100) * 0 :=
          rnd_scale3 0 f 0 _ _ _ _ hf0 hf1 (by rw [hcem0]; simp)
        _ ≤ 2 := by norm_num
    · simp only [calculate_materials]
      calc _ ≤ (5 : ℚ) / (2 * 10 ^ 1) + (108 / 100) * (1 / 4) :=
          rnd_scale4 1 f (1 / 4) _ _ _ _ _ hf0 hf1 hst0
        _ = 13 / 25 := by norm_num
    · simp only [calculate_materials]
      calc _ ≤ (4 : ℚ) / (2 * 10 ^ 1) + (108 / 100) * (1 / 5) :=
          rnd_scale3 1 f (1 / 5) _ _ _ _ hf0 hf1 hsa0
        _ = 52 / 125 := by norm_num
  refine ⟨by simpa only [calculate_materials] using hc0,
    by simpa only [calculate_materials] using hcem0,
    by simpa only [calculate_materials] using hst0,
    by simpa only [calculate_materials] using hsa0, ?_⟩
  by_cases h1 : plan_type = "economy"
  · subst h1
    rw [gpv_economy]
    have := hvar (108 / 100) (by norm_num) (by norm_num)
    simp only [scale_snapshot]
    exact ⟨this.1, this.2.1, this.2.2.1, this.2.2.2⟩
  by_cases h2 : plan_type = "premium"
  · subst h2
    rw [gpv_premium]
    have := hvar (95 / 100) (by norm_num) (by norm_num)
    simp only [scale_snapshot]
    exact ⟨this.1, this.2.1, this.2.2.1, this.2.2.2⟩
  · rw [gpv_other _ _ h1 h2]
    refine ⟨?_, ?_, ?_, ?_⟩
    · calc _ ≤ (1 : ℚ) / 40 := by simpa only [calculate_materials] using hc0
        _ ≤ 13 / 250 := by norm_num
    · have heq : (calculate_materials i).cement.total_bags
          = (calculate_materials i).cement.for_concrete
            + (calculate_materials i).cement.for_mortarbrickwork
            + (calculate_materials i).cement.for_plaster := by
        simpa only [calculate_materials] using hcem0
      rw [heq]; simp
    · calc _ ≤ (1 : ℚ) / 4 := by simpa only [calculate_materials] using hst0
        _ ≤ 13 / 25 := by norm_num
    · calc _ ≤ (1 : ℚ) / 5 := by simpa only [calculate_materials] using hsa0
        _ ≤ 52 / 125 := by norm_num

/-- C2 (counterexample): the claim says `total_material_cost` equals the sum
of the 8 itemized costs *as reported in the result*, for any rate table.
With rate 0.004 on cement (1 bag) and sand (1 m³) and 0 elsewhere, the
reported itemized costs all round to 0.00 while the reported total is 0.01:
the reported values differ. -/
theorem C2_reported_total_counterexample :
    cost_total (calculate_cost c2_snapshot "standard" (some c2_rates)) = 1 / 100
    ∧ sum_itemized (cost_itemized (calculate_cost c2_snapshot "standard" (some c2_rates)))
      = 0 := by
  decide

/-- C2 (amended): `total_material_cost` is the rounding of the exact sum of
the 8 unrounded category costs, so the reported total agrees with the sum of
the 8 reported itemized costs within the accumulated display rounding
(9 half-cents, i.e. 0.045), for every snapshot, plan and rate table. -/
theorem C2_total_matches_itemized_sum (m : MaterialsSnapshot) (plan_type : String)
    (custom_rates : Option (List (String × ℚ))) (r : CostResult)
    (h : calculate_cost m plan_type custom_rates = .ok r) :
    |r.total_material_cost - sum_itemized r.itemized_costs| ≤ 9 / 200 := by
  obtain ⟨c, s, a, st, b, t, p, pl, -, -, -, -, -, -, -, -, hr⟩ :=
    calculate_cost_ok_destruct m plan_type custom_rates r h
  subst hr
  simp only [mk_cost_result, sum_itemized, round_itemized, itemized_raw]
  calc _ ≤ (9 : ℚ) / (2 * 10 ^ 2) := rnd_sum8 2 _ _ _ _ _ _ _ _
    _ = 9 / 200 := by norm_num

set_option maxRecDepth 10000 in
/-- C2 (witness): the amended bound instantiated at the counterexample
snapshot and rate table. -/
theorem C2_total_matches_itemized_sum_witness :
    |(result_or_empty (calculate_cost c2_snapshot "standard" (some c2_rates))).total_material_cost
      - sum_itemized (result_or_empty
          (calculate_cost c2_snapshot "standard" (some c2_rates))).itemized_costs| ≤ 9 / 200 :=
  C2_total_matches_itemized_sum c2_snapshot "standard" (some c2_rates) _ (by decide)

set_option maxRecDepth 10000 in
/-- C3 (counterexample): on the §8 scenario, `footing_rcc` is 3.62 m³ —
equal to the claimed formula `8·(4·0.3048)·(4·0.3048)·(1·0.3048)` after
rounding — but nowhere near the 14.24 m³ the spec states that formula is
approximately equal to. -/
theorem C3_footing_value_counterexample :
    (calculate_materials scenario_inputs).concrete.footing_rcc = 181 / 50
    ∧ ¬ (|(181 / 50 : ℚ) - 1424 / 100| ≤ 1) := by
  decide

set_option maxRecDepth 10000 in
/-- C3 (amended): on the §8 scenario, `footing_rcc` equals the formula
`8·(4·0.3048)·(4·0.3048)·(1·0.3048)` ≈ 3.62 m³ (not 14.24 m³) within
rounding; total cement bags, sand, aggregate and steel are all strictly
positive; `calculate_cost` with default rates succeeds with
`total_material_cost > 0` and `cost_per_sqft` equal to the total divided by
1200 sqft up to display rounding. -/
theorem C3_scenario_amended :
    (calculate_materials scenario_inputs).concrete.footing_rcc = 181 / 50
    ∧ |(181 / 50 : ℚ) - 8 * (4 * FT_TO_M) * (4 * FT_TO_M) * (1 * FT_TO_M)| ≤ 1 / 100
    ∧ 0 < (calculate_materials scenario_inputs).cement.total_bags
    ∧ 0 < (calculate_materials scenario_inputs).sand.total_sand_kg
    ∧ 0 < (calculate_materials scenario_inputs).aggregate.total_aggregate_kg
    ∧ 0 < (calculate_materials scenario_inputs).steel.total_steel_kg
    ∧ is_ok (calculate_cost (calculate_materials scenario_inputs) "standard" none) = true
    ∧ 0 < cost_total (calculate_cost (calculate_materials scenario_inputs) "standard" none)
    ∧ cost_psf (calculate_cost (calculate_materials scenario_inputs) "standard" none)
        = some (16833 / 25)
    ∧ |(16833 / 25 : ℚ) * 1200
        - cost_total (calculate_cost (calculate_materials scenario_inputs) "standard" none)|
        ≤ 7 := by
  decide

set_option maxRecDepth 10000 in
/-- C4 (counterexample): a supplied rate table that omits all 8 required
keys — the empty table, which is falsy in Python — does NOT fail fast:
`calculate_cost` silently substitutes the entire default table and
succeeds. -/
theorem C4_empty_table_counterexample :
    calculate_cost zero_snapshot "standard" (some [])
      = calculate_cost zero_snapshot "standard" none
    ∧ is_ok (calculate_cost zero_snapshot "standard" (some [])) = true := by
  decide

/-- C4 (amended): every supplied *non-empty* rate table that omits at least
one of the 8 required keys makes `calculate_cost` fail fast with the missing
key as the error (Python's `KeyError`); no per-key default is substituted.
A supplied empty table is treated as absent and the whole default table is
used instead. -/
theorem C4_missing_key_fails (m : MaterialsSnapshot) (plan_type : String)
    (t : List (String × ℚ)) (hne : t ≠ [])
    (hmiss : ∃ k ∈ required_rate_keys, lookup_rate t k = none) :
    ∃ e, calculate_cost m plan_type (some t) = .error e := by
  cases hres : calculate_cost m plan_type (some t) with
  | error e => exact ⟨e, rfl⟩
  | ok r =>
    exfalso
    obtain ⟨c, s, a, st, b, t2, p, pl, h1, h2, h3, h4, h5, h6, h7, h8, -⟩ :=
      calculate_cost_ok_destruct m plan_type (some t) r hres
    have hbase : base_rates (some t) = t := by
      simp [base_rates, List.isEmpty_eq_true, hne]
    obtain ⟨k, hk, hknone⟩ := hmiss
    have hnone : lookup_rate (plan_rates plan_type (base_rates (some t))) k = none := by
      rw [hbase, lookup_plan_rates_none]
      exact hknone
    simp only [required_rate_keys, List.mem_cons, List.not_mem_nil, or_false] at hk
    rcases hk with rfl | rfl | rfl | rfl | rfl | rfl | rfl | rfl
    · rw [fetch_rate, hnone] at h1; exact absurd h1 (by simp)
    · rw [fetch_rate, hnone] at h2; exact absurd h2 (by simp)
    · rw [fetch_rate, hnone] at h3; exact absurd h3 (by simp)
    · rw [fetch_rate, hnone] at h4; exact absurd h4 (by simp)
    · rw [fetch_rate, hnone] at h5; exact absurd h5 (by simp)
    · rw [fetch_rate, hnone] at h6; exact absurd h6 (by simp)
    · rw [fetch_rate, hnone] at h7; exact absurd h7 (by simp)
    · rw [fetch_rate, hnone] at h8; exact absurd h8 (by simp)

/-- C4 (witness): a one-key table (only `cement_per_bag`) makes the cost
computation fail. -/
theorem C4_missing_key_fails_witness :
    ∃ e, calculate_cost zero_snapshot "standard" (some [("cement_per_bag", 420)])
      = .error e :=
  C4_missing_key_fails zero_snapshot "standard" [("cement_per_bag", 420)]
    (by decide) (by decide)

/-- C5: for every snapshot, plan and rate table, a successful
`calculate_cost` reports `cost_per_sqft = none` exactly when
`finishing.flooring_area_sqft` is 0 (the division is guarded, never
raised), and otherwise the reported cost per sqft times the area agrees
with the reported total within rounding. -/
theorem C5_cost_per_sqft_guard (m : MaterialsSnapshot) (plan_type : String)
    (custom_rates : Option (List (String × ℚ))) (r : CostResult)
    (h : calculate_cost m plan_type custom_rates = .ok r) :
    (r.cost_per_sqft = none ↔ m.finishing.flooring_area_sqft = 0)
    ∧ (m.finishing.flooring_area_sqft ≠ 0 →
        |(r.cost_per_sqft.getD 0) * m.finishing.flooring_area_sqft - r.total_material_cost|
          ≤ (1 + |m.finishing.flooring_area_sqft|) / 200) := by
  obtain ⟨c, s, a, st, b, t, p, pl, -, -, -, -, -, -, -, -, hr⟩ :=
    calculate_cost_ok_destruct m plan_type custom_rates r h
  subst hr
  by_cases ha : m.finishing.flooring_area_sqft = 0
  · constructor
    · simp [mk_cost_result, ha]
    · intro h2; exact absurd ha h2
  · constructor
    · simp [mk_cost_result, ha]
    · intro _
      simp only [mk_cost_result, if_neg ha, Option.getD_some]
      set T := sum_itemized (itemized_raw m c s a st b t p pl) with hT
      set area := m.finishing.flooring_area_sqft with harea
      have h1 := abs_rnd_sub_le 2 (T / area)
      have h2 := abs_rnd_sub_le 2 T
      have key : rnd 2 (T / area) * area - rnd 2 T
          = (rnd 2 (T / area) - T / area) * area + (T - rnd 2 T) := by
        have hTa : T / area * area = T := div_mul_cancel₀ T ha
        linear_combination hTa
      rw [key]
      calc |(rnd 2 (T / area) - T / area) * area + (T - rnd 2 T)|
          ≤ |(rnd 2 (T / area) - T / area) * area| + |T - rnd 2 T| := abs_add _ _
        _ = |rnd 2 (T / area) - T / area| * |area| + |rnd 2 T - T| := by
            rw [abs_mul, abs_sub_comm T]
        _ ≤ (1 / (2 * 10 ^ 2)) * |area| + 1 / (2 * 10 ^ 2) := by
            have := mul_le_mul_of_nonneg_right h1 (abs_nonneg area)
            linarith
        _ = (1 + |area|) / 200 := by ring

set_option maxRecDepth 10000 in
/-- C5 (witness): the guarantee instantiated at a snapshot with a non-zero
flooring area. -/
theorem C5_cost_per_sqft_guard_witness :
    ((result_or_empty (calculate_cost c5_snapshot "standard" none)).cost_per_sqft = none
      ↔ c5_snapshot.finishing.flooring_area_sqft = 0)
    ∧ (c5_snapshot.finishing.flooring_area_sqft ≠ 0 →
        |((result_or_empty (calculate_cost c5_snapshot "standard" none)).cost_per_sqft.getD 0)
            * c5_snapshot.finishing.flooring_area_sqft
          - (result_or_empty (calculate_cost c5_snapshot "standard" none)).total_material_cost|
          ≤ (1 + |c5_snapshot.finishing.flooring_area_sqft|) / 200) :=
  C5_cost_per_sqft_guard c5_snapshot "standard" none _ (by decide)

/-- C6: for every snapshot and cost result, `generate_boq` emits exactly 13
rows in the fixed order PCC, footing, column, beam, slab concrete, cement,
sand, aggregate, steel, bricks, tiles, paint, plaster; the 5 concrete rows
carry `rate = none` and `amount = none`, and every other row carries the
rate and amount taken from the cost result. -/
theorem C6_boq_shape (m : MaterialsSnapshot) (c : CostResult) :
    (generate_boq m c).length = 13
    ∧ (generate_boq m c).map BOQRow.item
      = ["PCC (Plain Cement Concrete)", "RCC Footing Concrete", "RCC Column Concrete",
         "RCC Beam Concrete", "RCC Slab Concrete", "Cement", "Sand", "Aggregate",
         "Steel Reinforcement", "Bricks", "Floor Tiles", "Paint", "Plaster"]
    ∧ ((generate_boq m c).take 5).map (fun r => (r.rate, r.amount))
      = [(none, none), (none, none), (none, none), (none, none), (none, none)]
    ∧ ((generate_boq m c).drop 5).map (fun r => (r.rate, r.amount))
      = [(lookup_rate c.applied_rates "cement_per_bag", some c.itemized_costs.cement),
         (lookup_rate c.applied_rates "sand_per_m3", some c.itemized_costs.sand),
         (lookup_rate c.applied_rates "aggregate_per_m3", some c.itemized_costs.aggregate),
         (lookup_rate c.applied_rates "steel_per_kg", some c.itemized_costs.steel),
         (lookup_rate c.applied_rates "brick_per_100", some c.itemized_costs.bricks),
         (lookup_rate c.applied_rates "tile_per_sqm", some c.itemized_costs.tiles),
         (lookup_rate c.applied_rates "paint_per_liter", some c.itemized_costs.paint),
         (lookup_rate c.applied_rates "plaster_per_m3", some c.itemized_costs.plaster)] :=
  ⟨rfl, rfl, rfl, rfl⟩

/-- C7 (counterexample): the unconditional claim "economy ≥ standard ≥
premium on every adjusted field, for every snapshot" fails: on a snapshot
whose `sand.concrete_sand_m3` is 0.004, the economy variant rounds
1.08·0.004 at 1 decimal down to 0, strictly below the standard variant's
unchanged 0.004. -/
theorem C7_ordering_counterexample :
    (generate_plan_variants c7_snapshot "economy").sand.concrete_sand_m3
      < (generate_plan_variants c7_snapshot "standard").sand.concrete_sand_m3 := by
  decide

/-- C7 (amended): for every snapshot whose adjusted fields are non-negative
and already at the decimal precision the variant loop re-rounds them to
(2 for concrete, 0 for cement / bricks / tiles, 1 for sand / aggregate /
steel), the economy variant is ≥ the standard variant and the standard
variant is ≥ the premium variant on every adjusted field. -/
theorem C7_ordering_on_aligned (m : MaterialsSnapshot) (h : variant_aligned m) :
    pairs_ge (adjusted_pairs (generate_plan_variants m "economy")
        (generate_plan_variants m "standard"))
    ∧ pairs_ge (adjusted_pairs (generate_plan_variants m "standard")
        (generate_plan_variants m "premium")) := by
  have hstd : generate_plan_variants m "standard" = m :=
    gpv_other m "standard" (by decide) (by decide)
  rw [gpv_economy, gpv_premium, hstd]
  simp only [variant_aligned, adjusted_field_precs, List.forall_mem_cons,
    List.forall_mem_nil, and_true] at h
  obtain ⟨h1, h2, h3, h4, h5, h6, h7, h8, h9, h10, h11, h12, h13, h14, h15, h16, h17,
    h18, h19, h20, h21, h22, h23, h24, h25, h26, h27⟩ := h
  constructor
  · simp only [pairs_ge, adjusted_pairs, scale_snapshot, List.forall_mem_cons,
      List.forall_mem_nil, and_true]
    exact ⟨le_rnd_scale_up 2 _ h1, le_rnd_scale_up 2 _ h2, le_rnd_scale_up 2 _ h3,
      le_rnd_scale_up 2 _ h4, le_rnd_scale_up 2 _ h5, le_rnd_scale_up 2 _ h6,
      le_rnd_scale_up 0 _ h7, le_rnd_scale_up 0 _ h8, le_rnd_scale_up 0 _ h9,
      le_rnd_scale_up 0 _ h10, le_rnd_scale_up 1 _ h11, le_rnd_scale_up 1 _ h12,
      le_rnd_scale_up 1 _ h13, le_rnd_scale_up 1 _ h14, le_rnd_scale_up 1 _ h15,
      le_rnd_scale_up 1 _ h16, le_rnd_scale_up 1 _ h17, le_rnd_scale_up 1 _ h18,
      le_rnd_scale_up 1 _ h19, le_rnd_scale_up 1 _ h20, le_rnd_scale_up 1 _ h21,
      le_rnd_scale_up 1 _ h22, le_rnd_scale_up 1 _ h23, le_rnd_scale_up 1 _ h24,
      le_rnd_scale_up 1 _ h25, le_rnd_scale_up 0 _ h26, le_rnd_scale_up 0 _ h27.1,
      by simp⟩
  · simp only [pairs_ge, adjusted_pairs, scale_snapshot, List.forall_mem_cons,
      List.forall_mem_nil, and_true]
    exact ⟨rnd_scale_down_le 2 _ h1, rnd_scale_down_le 2 _ h2, rnd_scale_down_le 2 _ h3,
      rnd_scale_down_le 2 _ h4, rnd_scale_down_le 2 _ h5, rnd_scale_down_le 2 _ h6,
      rnd_scale_down_le 0 _ h7, rnd_scale_down_le 0 _ h8, rnd_scale_down_le 0 _ h9,
      rnd_scale_down_le 0 _ h10, rnd_scale_down_le 1 _ h11, rnd_scale_down_le 1 _ h12,
      rnd_scale_down_le 1 _ h13, rnd_scale_down_le 1 _ h14, rnd_scale_down_le 1 _ h15,
      rnd_scale_down_le 1 _ h16, rnd_scale_down_le 1 _ h17, rnd_scale_down_le 1 _ h18,
      rnd_scale_down_le 1 _ h19, rnd_scale_down_le 1 _ h20, rnd_scale_down_le 1 _ h21,
      rnd_scale_down_le 1 _ h22, rnd_scale_down_le 1 _ h23, rnd_scale_down_le 1 _ h24,
      rnd_scale_down_le 1 _ h25, rnd_scale_down_le 0 _ h26, rnd_scale_down_le 0 _ h27.1,
      by simp⟩

/-- C7 (witness): the ordering instantiated at a variant-aligned snapshot
with scenario-sized values. -/
theorem C7_ordering_on_aligned_witness :
    pairs_ge (adjusted_pairs (generate_plan_variants c7_aligned_snapshot "economy")
        (generate_plan_variants c7_aligned_snapshot "standard"))
    ∧ pairs_ge (adjusted_pairs (generate_plan_variants c7_aligned_snapshot "standard")
        (generate_plan_variants c7_aligned_snapshot "premium")) :=
  C7_ordering_on_aligned c7_aligned_snapshot (by decide)

set_option maxRecDepth 10000 in
/-- C8 (counterexample): `generate_plan_variants` does not re-round each
scaled field to that field's original precision: on the §8 scenario,
`sand.concrete_sand_m3` is 12.513 (3 decimals) and the economy variant
stores 13.5 — the value re-rounded at 1 decimal — not 13.514, the value the
claim requires at the original 3-decimal precision. -/
theorem C8_precision_counterexample :
    (generate_plan_variants (calculate_materials scenario_inputs) "economy").sand.concrete_sand_m3
      = 27 / 2
    ∧ rnd 3 ((calculate_materials scenario_inputs).sand.concrete_sand_m3 * (108 / 100))
      = 6757 / 500
    ∧ (27 / 2 : ℚ) ≠ 6757 / 500 := by
  decide

/-- C8 (amended): for the economy and premium plans,
`generate_plan_variants` re-rounds every scaled field to its *section's*
fixed precision — 2 decimals for concrete, 0 for cement, bricks and tiles,
1 for all sand / aggregate / steel fields — regardless of the precision the
field had in the input snapshot (in particular the 3-decimal sand m³ fields
are coarsened to 1 decimal). -/
theorem C8_variant_precision (m : MaterialsSnapshot) (plan_type : String)
    (h : plan_type = "economy" ∨ plan_type = "premium") :
    all_at_prec (adjusted_field_precs (generate_plan_variants m plan_type)) := by
  rcases h with rfl | rfl
  · rw [gpv_economy]
    simp [all_at_prec, adjusted_field_precs, scale_snapshot, rnd_rnd]
  · rw [gpv_premium]
    simp [all_at_prec, adjusted_field_precs, scale_snapshot, rnd_rnd]

/-- C8 (witness): the precision guarantee instantiated at the scenario
snapshot's economy variant. -/
theorem C8_variant_precision_witness :
    all_at_prec (adjusted_field_precs
      (generate_plan_variants (calculate_materials scenario_inputs) "economy")) :=
  C8_variant_precision (calculate_materials scenario_inputs) "economy" (Or.inl rfl)

/-- C9: every plan string other than "economy" and "premium" (misspellings
included) is silently treated as the standard plan: `generate_plan_variants`
returns its input unchanged and `calculate_cost` behaves exactly as with
plan "standard" (unscaled rates). -/
theorem C9_unrecognized_plan_is_standard (s m : MaterialsSnapshot) (plan_type : String)
    (custom_rates : Option (List (String × ℚ)))
    (h1 : plan_type ≠ "economy") (h2 : plan_type ≠ "premium") :
    generate_plan_variants s plan_type = s
    ∧ calculate_cost m plan_type custom_rates = calculate_cost m "standard" custom_rates := by
  refine ⟨gpv_other s plan_type h1 h2, ?_⟩
  have hr : plan_rates plan_type (base_rates custom_rates)
      = plan_rates "standard" (base_rates custom_rates) := by
    simp [plan_rates, h1, h2]
  unfold calculate_cost
  rw [hr]

/-- C9 (witness): the misspelt plan "standrad" is treated as standard. -/
theorem C9_unrecognized_plan_is_standard_witness :
    generate_plan_variants zero_snapshot "standrad" = zero_snapshot
    ∧ calculate_cost zero_snapshot "standrad" none
      = calculate_cost zero_snapshot "standard" none :=
  C9_unrecognized_plan_is_standard zero_snapshot zero_snapshot "standrad" none
    (by decide) (by decide)

/-- C10: whenever the overridable brick dimensions make the single-brick
volume non-positive, `calculate_materials` sets `masonry.brick_quantity`
to 0 instead of dividing by the non-positive volume — a third guarded
division beyond the two the spec lists. -/
theorem C10_brick_volume_guard (i : InputSet)
    (h : i.brick_length_m * i.brick_width_m * i.brick_height_m ≤ 0) :
    (calculate_materials i).masonry.brick_quantity = 0 := by
  have hbs : ¬ 0 < brick_size i := by
    rw [brick_size]; exact not_lt.mpr h
  have hb : bricks_per_m3 i = 0 := by
    rw [bricks_per_m3, if_neg hbs]
  simp [calculate_materials, bricks_required, hb, rnd_zero]

set_option maxRecDepth 10000 in
/-- C10 (witness): the guard instantiated at the scenario inputs with a
zero brick length. -/
theorem C10_brick_volume_guard_witness :
    (calculate_materials { scenario_inputs with brick_length_m := 0 }).masonry.brick_quantity
      = 0 :=
  C10_brick_volume_guard { scenario_inputs with brick_length_m := 0 } (by decide)
